import Mathlib

/-!
Shallow embedding of the gas-pool core (`gas_pool_core.rs`) and the chain
client (`sui_client.rs`) of the sponsored-gas pool service.

External collaborators (the signer, the persistent coin store, the usage cap
and the fullnode) are modelled as oracles: each call site that reaches one of
them takes the outcome of that call as an explicit input.  Every function that
performs side effects additionally returns a trace recording exactly which
collaborator calls it made and with which arguments.

Machine integers: `u64` values are `Nat`s reduced mod `2 ^ 64` at the points
where the Rust code performs a cast or a wrapping operation; `i64` values are
`Int`s, with the release-profile two's-complement wrapping made explicit
(`i64_wrap`).  The `HashMap` returned by `get_latest_gas_objects` is
determinized as an association list keyed by the deduplicated id list.
-/

deriving instance DecidableEq for Except

namespace GasPoolModel

abbrev Address := Nat

abbrev ObjectID := Nat

/-- Rust `ObjectRef = (ObjectID, SequenceNumber, ObjectDigest)`. -/
structure ObjectRef where
  id : ObjectID
  version : Nat
  digest : Nat
deriving DecidableEq

/-- The service's own coin record, `types::GasCoin`. -/
structure GasCoin where
  owner : Address
  object_ref : ObjectRef
  balance : Nat
deriving DecidableEq

abbrev ReservationID := Nat

/-! ### Chain-client layer (`sui_client.rs`) -/

/-- Object ownership as reported by the fullnode (`sui_types::object::Owner`). -/
inductive Owner where
  | addressOwner (a : Address)
  | objectOwner (a : Address)
  | shared
  | immutable
deriving DecidableEq

/-- Rust `Owner::get_address_owner_address`, which succeeds only on
`AddressOwner`. -/
def Owner.get_address_owner_address : Owner → Option Address
  | .addressOwner a => some a
  | _ => none

/-- Raw BCS payload of an object response (`SuiRawData`): either a Move object
carrying a type tag and its BCS bytes, or a package. -/
inductive SuiRawData where
  | moveObject (type_tag : Nat) (bcs_bytes : List Nat)
  | package (modules : List (List Nat))
deriving DecidableEq

/-- Rust `SuiRawData::try_as_move`. -/
def SuiRawData.try_as_move : SuiRawData → Option (Nat × List Nat)
  | .moveObject type_tag bcs_bytes => some (type_tag, bcs_bytes)
  | .package _ => none

/-- The designated type tag of `sui_types::gas_coin::GasCoin::type_()`. -/
def gas_coin_type_tag : Nat := 0

/-- Object data carried by a fullnode response (`SuiObjectData`), restricted to
the fields requested by the client (`with_bcs().with_owner()`). -/
structure SuiObjectData where
  object_ref : ObjectRef
  owner : Option Owner
  bcs : Option SuiRawData
deriving DecidableEq

/-- Fullnode response for one object id (`SuiObjectResponse`); `data = none`
means the object does not exist (any more) on-chain. -/
structure SuiObjectResponse where
  data : Option SuiObjectData
deriving DecidableEq

/-- Little-endian byte-list decoding used by the BCS layout of `u64`. -/
def leBytesToNat : List Nat → Nat
  | [] => 0
  | b :: rest => b + 256 * leBytesToNat rest

/-- BCS decoding of the on-chain `GasCoin` Move struct (external `bcs` crate):
32 bytes of `UID` followed by the 8-byte little-endian `u64` balance; decoding
fails on any other length or on a non-byte entry.  Returns the balance, the
value `gas_coin.value()` reads. -/
def bcs_from_bytes_gas_coin (bytes : List Nat) : Option Nat :=
  if bytes.length = 40 ∧ bytes.all (fun b => b < 256) then
    some (leBytesToNat (bytes.drop 32))
  else
    none

/-- Rust `SuiClient::try_get_sui_coin_balance`: extract an address-owned
gas-coin record from a fullnode object response, `None` on any missing or
mismatching layer. -/
def try_get_sui_coin_balance (object : SuiObjectResponse) : Option GasCoin := do
  let data ← object.data
  let owner ← (← data.owner).get_address_owner_address
  let object_ref := data.object_ref
  let move_obj ← (← data.bcs).try_as_move
  if move_obj.1 ≠ gas_coin_type_tag then
    none
  else
    let balance ← bcs_from_bytes_gas_coin move_obj.2
    pure { owner := owner, object_ref := object_ref, balance := balance }

/-- Rust `SuiClient::get_latest_gas_objects`: batched multi-get over the ids,
each response run through `try_get_sui_coin_balance`, collected into a map
keyed by object id.  The chain is the oracle `chain`; the `HashMap` is
determinized as an association list over the deduplicated id list (duplicate
ids collapse onto one key, exactly as in the `HashMap`). -/
def get_latest_gas_objects (chain : ObjectID → SuiObjectResponse)
    (object_ids : List ObjectID) : List (ObjectID × Option GasCoin) :=
  object_ids.dedup.map fun i => (i, try_get_sui_coin_balance (chain i))

/-- The `into_values().flatten().collect()` idiom applied to
`get_latest_gas_objects`: the surviving coins, `None` entries dropped. -/
def latest_surviving_coins (chain : ObjectID → SuiObjectResponse)
    (object_ids : List ObjectID) : List GasCoin :=
  (get_latest_gas_objects chain object_ids).filterMap Prod.snd

/-! ### Transaction data (`sui_types::transaction`, as inspected by the core) -/

/-- Programmable-transaction argument (`sui_types::transaction::Argument`). -/
inductive Argument where
  | gasCoin
  | input (ix : Nat)
  | result (ix : Nat)
  | nestedResult (ix jx : Nat)
deriving DecidableEq

/-- Rust `ProgrammableMoveCall`; only `arguments` is ever inspected by the
core, the remaining fields are carried as opaque data. -/
structure ProgrammableMoveCall where
  package : Nat
  module : Nat
  function : Nat
  type_arguments : List Nat
  arguments : List Argument
deriving DecidableEq

/-- Programmable-transaction command (`sui_types::transaction::Command`), with
the same constructor arities as the Rust enum; slots the core never inspects
are carried as opaque data. -/
inductive Command where
  | moveCall (call : ProgrammableMoveCall)
  | transferObjects (objects : List Argument) (address : Argument)
  | splitCoins (coin : Argument) (amounts : List Argument)
  | mergeCoins (destination : Argument) (sources : List Argument)
  | publish (modules : List (List Nat)) (dependencies : List ObjectID)
  | makeMoveVec (type_tag : Option Nat) (elements : List Argument)
  | upgrade (modules : List (List Nat)) (dependencies : List ObjectID)
      (pkg : ObjectID) (ticket : Argument)
deriving DecidableEq

/-- Rust `GasData` (payment refs, sponsor/owner, price, budget). -/
structure GasData where
  payment : List ObjectRef
  owner : Address
  price : Nat
  budget : Nat
deriving DecidableEq

/-- Rust `TransactionData`, restricted to the fields the core reads: the
command sequence of its programmable kind (`kind().iter_commands()`), the
sender, and the gas data. -/
structure TransactionData where
  kind : List Command
  sender : Address
  gas_data : GasData
deriving DecidableEq

/-! ### Orchestrator error kinds

The Rust code propagates `anyhow` errors; the distinct error kinds of the
design are modelled as distinct constructors.  Errors produced by an oracle
(coin store, signer, chain client) are wrapped in the constructor of the call
site that propagated them, carrying an opaque code. -/

inductive ExecError where
  | unknownSponsor
  | gasCoinMisuse
  | capExceeded
  | storeError (code : Nat)
  | signerFailed (code : Nat)
  | executionFailed (code : Nat)
deriving DecidableEq

/-! ### Transaction validity check (`GasPool::check_transaction_validity`) -/

/-- Per-command argument accumulation performed by the `match` inside
`check_transaction_validity`: `MoveCall` contributes `call.arguments`,
`TransferObjects(args, _)` contributes `args` only, `SplitCoins(arg, _)`
contributes `arg` only, `MergeCoins(arg, args)` contributes `arg :: args`,
`MakeMoveVec(_, args)` contributes `args`, and `Publish`/`Upgrade` contribute
nothing. -/
def commandArguments : Command → List Argument
  | .moveCall call => call.arguments
  | .transferObjects objects _ => objects
  | .splitCoins coin _ => [coin]
  | .mergeCoins destination sources => destination :: sources
  | .publish _ _ => []
  | .makeMoveVec _ elements => elements
  | .upgrade _ _ _ _ => []

/-- Rust `GasPool::check_transaction_validity`: collect the arguments of every
command as above and fail with `GasCoinMisuse` when any of them is the
`GasCoin` pseudo-argument. -/
def check_transaction_validity (tx_data : TransactionData) : Except ExecError Unit :=
  let all_args := tx_data.kind.flatMap commandArguments
  if all_args.any fun arg => arg = Argument.gasCoin then
    .error .gasCoinMisuse
  else
    .ok ()

/-! ### Machine-integer helpers -/

/-- Reinterpret a `u64` value as an `i64` (the Rust cast `as i64`). -/
def u64_as_i64 (n : Nat) : Int :=
  if (n : Int) % 18446744073709551616 < 9223372036854775808 then
    (n : Int) % 18446744073709551616
  else
    (n : Int) % 18446744073709551616 - 18446744073709551616

/-- Reduce an integer into the `i64` range by two's-complement wrapping. -/
def i64_wrap (x : Int) : Int :=
  (x + 9223372036854775808) % 18446744073709551616 - 9223372036854775808

/-- Release-profile `i64` subtraction (two's-complement wrapping). -/
def i64_sub (a b : Int) : Int := i64_wrap (a - b)

/-- Reinterpret an `i64` value as a `u64` (the Rust cast `as u64`). -/
def i64_as_u64 (x : Int) : Nat := (x % 18446744073709551616).toNat

/-- Rust `GasPool::get_total_gas_coin_balance`: query the latest gas objects
for the given ids, drop the missing ones, and sum the balances (a `u64` sum,
hence reduced mod `2 ^ 64`). -/
def get_total_gas_coin_balance (chain : ObjectID → SuiObjectResponse)
    (gas_coins : List ObjectID) : Nat :=
  ((latest_surviving_coins chain gas_coins).map GasCoin.balance).sum %
    18446744073709551616

/-! ### Execution (`GasPool::execute_transaction`) -/

/-- Effects of a submitted transaction, restricted to the fields the core
reads: `effects.gas_object().reference.to_object_ref()` and
`effects.gas_cost_summary().net_gas_usage()` (an `i64`). -/
structure TransactionEffects where
  gas_object : ObjectRef
  net_gas_usage : Int
deriving DecidableEq

/-- The tuple returned by `SuiClient::execute_transaction`:
`(timestamp_ms, effects, events)`, events carried opaquely. -/
structure ExecuteResponse where
  timestamp_ms : Option Nat
  effects : TransactionEffects
  events : Option Nat
deriving DecidableEq

/-- Oracle outcomes for one `execute_transaction` call: the signer's address
registry, the coin-store `ready_for_execution` outcome, the chain state at the
pre-balance read, the (already retried) signing and submission outcomes, and
the chain state at the failure-path read. -/
structure ExecEnv where
  is_valid_address : Address → Bool
  ready_for_execution : Except Nat Unit
  chain_pre : ObjectID → SuiObjectResponse
  sign_result : Except Nat Unit
  submit_result : Except Nat ExecuteResponse
  chain_post : ObjectID → SuiObjectResponse

/-- Side effects of `execute_transaction_impl`: whether signing and submission
were attempted, and the delta passed to `usage_cap.update_usage` (if any). -/
structure ImplTrace where
  sign_attempted : Bool
  submit_attempted : Bool
  cap_updated : Option Int
deriving DecidableEq

/-- Rust `GasPool::execute_transaction_impl`: sign (retried internally, the
oracle carries the final outcome), submit (likewise), then update the usage
cap with the effects' net gas usage.  A signing failure is surfaced as
`SignerFailed`, a submission failure as `ExecutionFailed`. -/
def execute_transaction_impl (env : ExecEnv) :
    Except ExecError ExecuteResponse × ImplTrace :=
  match env.sign_result with
  | .error c => (.error (.signerFailed c), ⟨true, false, none⟩)
  | .ok () =>
    match env.submit_result with
    | .error c => (.error (.executionFailed c), ⟨true, true, none⟩)
    | .ok r => (.ok r, ⟨true, true, some r.effects.net_gas_usage⟩)

/-- Side effects of `execute_transaction`: whether `ready_for_execution` was
called, the ids sent to the pre-balance `get_latest_gas_objects` read, the
impl-level effects, the ids sent to the failure-path read, and the coin list
passed to `add_new_coins` (`none` = not called). -/
structure ExecTrace where
  ready_called : Bool
  pre_read : Option (List ObjectID)
  sign_attempted : Bool
  submit_attempted : Bool
  cap_updated : Option Int
  post_read : Option (List ObjectID)
  released : Option (List GasCoin)
deriving DecidableEq

/-- The trace of an `execute_transaction` call that failed before
`ready_for_execution`. -/
def empty_trace : ExecTrace :=
  { ready_called := false, pre_read := none, sign_attempted := false,
    submit_attempted := false, cap_updated := none, post_read := none,
    released := none }

/-- Rust `GasPool::execute_transaction`.  In source order: the sponsor
registration check, `check_transaction_validity`, the payment-id extraction,
`ready_for_execution` (failure propagates with no further side effect),
the pre-balance read, `execute_transaction_impl`, then the branch computing
the updated coins — on success one coin at the effects' gas object with the
derived balance, on failure the surviving latest states of the payment ids —
and finally `release_gas_coins` (`add_new_coins`, retried forever) with
exactly those coins, before the impl outcome is returned. -/
def execute_transaction (env : ExecEnv) (tx_data : TransactionData) :
    Except ExecError ExecuteResponse × ExecTrace :=
  let sponsor := tx_data.gas_data.owner
  if ¬ env.is_valid_address sponsor then
    (.error .unknownSponsor, empty_trace)
  else
    match check_transaction_validity tx_data with
    | .error e => (.error e, empty_trace)
    | .ok () =>
      let payment := tx_data.gas_data.payment.map ObjectRef.id
      match env.ready_for_execution with
      | .error c =>
        (.error (.storeError c), { empty_trace with ready_called := true })
      | .ok () =>
        let total_gas_coin_balance := get_total_gas_coin_balance env.chain_pre payment
        let response := (execute_transaction_impl env).1
        let impl := (execute_transaction_impl env).2
        let updated_coins : List GasCoin :=
          match response with
          | .ok r =>
            let new_gas_coin := r.effects.gas_object
            let new_balance :=
              i64_sub (u64_as_i64 total_gas_coin_balance) r.effects.net_gas_usage
            [{ owner := sponsor, object_ref := new_gas_coin,
               balance := i64_as_u64 new_balance }]
          | .error _ => latest_surviving_coins env.chain_post payment
        (response,
         { ready_called := true,
           pre_read := some payment,
           sign_attempted := impl.sign_attempted,
           submit_attempted := impl.submit_attempted,
           cap_updated := impl.cap_updated,
           post_read := match response with
             | .ok _ => none
             | .error _ => some payment,
           released := some updated_coins })

/-! ### Reservation (`GasPool::reserve_gas`) -/

/-- Oracle outcomes for one `reserve_gas` call: the signer's address list, the
usage-cap admission outcome, and the coin-store `reserve_gas_coins` outcome as
a function of the arguments passed to it. -/
structure ReserveEnv where
  signer_addresses : List Address
  cap_check : Except Unit Unit
  store_reserve : Address → Nat → Nat →
    Except Nat (ReservationID × List GasCoin)

/-- Side effect of `reserve_gas`: the arguments passed to the coin store's
`reserve_gas_coins` (`none` = not called). -/
structure ReserveTrace where
  store_called : Option (Address × Nat × Nat)
deriving DecidableEq

/-- Rust `GasPool::reserve_gas`: default the sponsor to the signer's first
address, check the usage cap (failure maps to `CapExceeded` with no coin-store
call), reserve through the coin store, and on success return the sponsor, the
reservation id and the object references of the reserved coins with balances
stripped.  The duration argument is already in milliseconds
(`duration.as_millis() as u64`). -/
def reserve_gas (env : ReserveEnv) (sponsor_address : Option Address)
    (gas_budget : Nat) (duration_ms : Nat) :
    Except ExecError (Address × ReservationID × List ObjectRef) × ReserveTrace :=
  let sponsor := sponsor_address.getD (env.signer_addresses.headD 0)
  match env.cap_check with
  | .error () => (.error .capExceeded, ⟨none⟩)
  | .ok () =>
    match env.store_reserve sponsor gas_budget duration_ms with
    | .error c =>
      (.error (.storeError c), ⟨some (sponsor, gas_budget, duration_ms)⟩)
    | .ok (reservation_id, gas_coins) =>
      (.ok (sponsor, reservation_id, gas_coins.map GasCoin.object_ref),
       ⟨some (sponsor, gas_budget, duration_ms)⟩)

/-! ### Expiration sweeper (`GasPool::start_coin_unlock_task`, one tick) -/

/-- Side effects of one sweeper tick: the ids sent to
`get_latest_gas_objects` and the coin list passed to `add_new_coins`
(`none` = the respective call was not made).  The tick has no error
component: no error is ever surfaced from the task. -/
structure SweepTrace where
  latest_queried : Option (List ObjectID)
  released : Option (List GasCoin)
deriving DecidableEq

/-- One iteration of the coin-unlock loop: `expire_coins` errors are swallowed
and replaced by the empty id list; on a non-empty id list the latest states
are queried, the missing entries dropped, and the survivors released back to
the store (`release_gas_coins`, retried forever). -/
def coin_unlock_tick (expire_result : Except Nat (List ObjectID))
    (chain : ObjectID → SuiObjectResponse) : SweepTrace :=
  let unlocked_coins :=
    match expire_result with
    | .error _ => []
    | .ok ids => ids
  if unlocked_coins.isEmpty then
    ⟨none, none⟩
  else
    let latest_coins := latest_surviving_coins chain unlocked_coins
    ⟨some unlocked_coins, some latest_coins⟩

/-! ### Health check (`GasPool::debug_check_health`) -/

/-- The constant `MIST_PER_OCT` of `sui_types::gas_coin` (one native token in
its smallest denomination). -/
def MIST_PER_OCT : Nat := 1000000000

/-- Oracle outcomes for one `debug_check_health` call. -/
structure HealthEnv where
  reserve_env : ReserveEnv
  sign_result : Except Nat Unit

/-- Side effects of `debug_check_health`: the inner `reserve_gas` trace, the
transaction handed to the signer (`none` = signing was never reached), whether
anything was submitted to the chain, and the coin list passed to
`add_new_coins` (`none` = not called). -/
structure HealthTrace where
  reserve_trace : ReserveTrace
  signed_tx : Option TransactionData
  submitted : Bool
  released : Option (List GasCoin)
deriving DecidableEq

/-- Rust `TransactionData::new_with_gas_coins(kind, sender, coins, budget,
price)` (external `sui_types`): builds transaction data whose gas owner is the
sender. -/
def new_with_gas_coins (kind : List Command) (sender : Address)
    (gas_coins : List ObjectRef) (gas_budget : Nat) (gas_price : Nat) :
    TransactionData :=
  { kind := kind, sender := sender,
    gas_data :=
      { payment := gas_coins, owner := sender, price := gas_price,
        budget := gas_budget } }

/-- Rust `GasPool::debug_check_health`: reserve a tenth of a token for three
seconds for the signer's first address, build an empty programmable
transaction over the reserved refs with the default (zero) sender, sign it,
and return — nothing is submitted and no coin is released by this function. -/
def debug_check_health (env : HealthEnv) : Except ExecError Unit × HealthTrace :=
  let gas_budget := MIST_PER_OCT / 10
  let sponsor := env.reserve_env.signer_addresses.headD 0
  match reserve_gas env.reserve_env (some sponsor) gas_budget 3000 with
  | (.error e, t) => (.error e, ⟨t, none, false, none⟩)
  | (.ok (_address, _reservation_id, gas_coins), t) =>
    let tx_data := new_with_gas_coins [] 0 gas_coins gas_budget 0
    match env.sign_result with
    | .error c => (.error (.signerFailed c), ⟨t, some tx_data, false, none⟩)
    | .ok () => (.ok (), ⟨t, some tx_data, false, none⟩)

/-! ### Spec-side definition for the refinement claim on validity checking -/

/-- Modelled from the spec's words for the validity rule: the set of arguments
the spec says are inspected — every argument of every move call, transfer,
split, merge and make-vec command (including a transfer's recipient argument
and a split's amount arguments); Publish and Upgrade carry none. -/
def command_arguments_spec : Command → List Argument
  | .moveCall call => call.arguments
  | .transferObjects objects address => objects ++ [address]
  | .splitCoins coin amounts => coin :: amounts
  | .mergeCoins destination sources => destination :: sources
  | .publish _ _ => []
  | .makeMoveVec _ elements => elements
  | .upgrade _ _ _ _ => []

/-! ### Concrete fixtures used by witnesses and counterexamples -/

/-- Little-endian encoding of a value into a fixed number of bytes. -/
def natToLeBytes : Nat → Nat → List Nat
  | 0, _ => []
  | w + 1, v => v % 256 :: natToLeBytes w (v / 256)

/-- Fullnode response for an object that no longer exists. -/
def missing_response : SuiObjectResponse := ⟨none⟩

/-- Fullnode response for a live, address-owned gas coin of the given owner,
reference and balance. -/
def coin_response (a : Address) (r : ObjectRef) (bal : Nat) : SuiObjectResponse :=
  ⟨some { object_ref := r, owner := some (.addressOwner a),
          bcs := some (.moveObject gas_coin_type_tag
            (List.replicate 32 0 ++ natToLeBytes 8 bal)) }⟩

def ref_a : ObjectRef := ⟨1, 1, 11⟩

def ref_b : ObjectRef := ⟨2, 1, 12⟩

def ref_a2 : ObjectRef := ⟨1, 2, 21⟩

/-- A gas-data/transaction fixture sponsored by address 5 paying with the two
coins `ref_a`, `ref_b`. -/
def tx_w : TransactionData :=
  { kind := [], sender := 7,
    gas_data := { payment := [ref_a, ref_b], owner := 5, price := 1, budget := 1000 } }

/-- A chain mapping id 1 to a live coin of balance 100 and id 2 to a missing
object. -/
def chain_w : ObjectID → SuiObjectResponse := fun i =>
  if i = 1 then coin_response 5 ref_a 100 else missing_response

/-- Environment in which signing fails (so `execute_transaction_impl` errors)
after a successful `ready_for_execution`. -/
def env_sign_fail : ExecEnv :=
  { is_valid_address := fun a => a == 5,
    ready_for_execution := .ok (),
    chain_pre := chain_w,
    sign_result := .error 0,
    submit_result := .error 0,
    chain_post := chain_w }

/-- Environment in which `ready_for_execution` fails. -/
def env_ready_fail : ExecEnv :=
  { is_valid_address := fun a => a == 5,
    ready_for_execution := .error 7,
    chain_pre := chain_w,
    sign_result := .ok (),
    submit_result := .error 0,
    chain_post := chain_w }

/-- Environment in which everything succeeds and the payment coins read as
missing before submission (pre-balance 0), with net gas usage 1. -/
def env_overdraft : ExecEnv :=
  { is_valid_address := fun a => a == 5,
    ready_for_execution := .ok (),
    chain_pre := fun _ => missing_response,
    sign_result := .ok (),
    submit_result := .ok { timestamp_ms := some 9, effects := ⟨ref_a2, 1⟩, events := none },
    chain_post := fun _ => missing_response }

/-- Environment in which everything succeeds with pre-balance 100 (only coin 1
live) and net gas usage 30. -/
def env_success : ExecEnv :=
  { is_valid_address := fun a => a == 5,
    ready_for_execution := .ok (),
    chain_pre := chain_w,
    sign_result := .ok (),
    submit_result := .ok { timestamp_ms := some 9, effects := ⟨ref_a2, 30⟩, events := none },
    chain_post := chain_w }

/-! ### Helper lemmas -/

/-- The derived-balance computation is subtraction mod `2 ^ 64`. -/
theorem i64_derived_balance (t : Nat) (g : Int) :
    (i64_as_u64 (i64_sub (u64_as_i64 t) g) : Int) =
      ((t : Int) - g) % 18446744073709551616 := by
  unfold i64_as_u64 i64_sub i64_wrap u64_as_i64
  split <;> omega

/-- The validity check in terms of membership of the collected argument
list. -/
theorem check_transaction_validity_eq (tx_data : TransactionData) :
    check_transaction_validity tx_data =
      if Argument.gasCoin ∈ tx_data.kind.flatMap commandArguments then
        .error .gasCoinMisuse
      else
        .ok () := by
  have h : ((tx_data.kind.flatMap commandArguments).any fun arg =>
      arg = Argument.gasCoin) = true ↔
      Argument.gasCoin ∈ tx_data.kind.flatMap commandArguments := by
    rw [List.any_eq_true]
    constructor
    · rintro ⟨x, hx, he⟩
      have hxg : x = Argument.gasCoin := of_decide_eq_true he
      exact hxg ▸ hx
    · intro hm
      exact ⟨_, hm, decide_eq_true rfl⟩
  by_cases hmem : Argument.gasCoin ∈ tx_data.kind.flatMap commandArguments
  · simp only [check_transaction_validity, if_pos hmem, if_pos (h.mpr hmem)]
  · simp only [check_transaction_validity, if_neg hmem]
    rw [if_neg]
    intro hc
    exact hmem (h.mp hc)

/-- Shape of `execute_transaction_impl` when signing fails. -/
theorem impl_sign_fail (env : ExecEnv) (c : Nat) (hs : env.sign_result = .error c) :
    execute_transaction_impl env = (.error (.signerFailed c), ⟨true, false, none⟩) := by
  unfold execute_transaction_impl
  rw [hs]

/-- Shape of `execute_transaction_impl` when submission fails. -/
theorem impl_submit_fail (env : ExecEnv) (c : Nat)
    (hs : env.sign_result = .ok ()) (hb : env.submit_result = .error c) :
    execute_transaction_impl env = (.error (.executionFailed c), ⟨true, true, none⟩) := by
  unfold execute_transaction_impl
  rw [hs, hb]

/-- Shape of `execute_transaction_impl` when submission succeeds. -/
theorem impl_submit_ok (env : ExecEnv) (r : ExecuteResponse)
    (hs : env.sign_result = .ok ()) (hb : env.submit_result = .ok r) :
    execute_transaction_impl env = (.ok r, ⟨true, true, some r.effects.net_gas_usage⟩) := by
  unfold execute_transaction_impl
  rw [hs, hb]

/-- Shape of a successful `execute_transaction_impl`. -/
theorem impl_ok_shape (env : ExecEnv) (r : ExecuteResponse)
    (h : (execute_transaction_impl env).1 = .ok r) :
    execute_transaction_impl env = (.ok r, ⟨true, true, some r.effects.net_gas_usage⟩) := by
  rcases hs : env.sign_result with c | u
  · rw [impl_sign_fail env c hs] at h
    exact absurd h (by simp)
  · cases u
    rcases hb : env.submit_result with c | r2
    · rw [impl_submit_fail env c hs hb] at h
      exact absurd h (by simp)
    · have h2 := impl_submit_ok env r2 hs hb
      rw [h2] at h
      obtain rfl : r2 = r := by simpa using h
      exact h2

/-- Shape of `execute_transaction` when the sponsor is not registered. -/
theorem execute_unknown_sponsor (env : ExecEnv) (tx_data : TransactionData)
    (h : env.is_valid_address tx_data.gas_data.owner = false) :
    execute_transaction env tx_data = (.error .unknownSponsor, empty_trace) := by
  simp [execute_transaction, h]

/-- Shape of `execute_transaction` when the transaction misuses the gas
coin. -/
theorem execute_misuse (env : ExecEnv) (tx_data : TransactionData)
    (h1 : env.is_valid_address tx_data.gas_data.owner = true)
    (h2 : Argument.gasCoin ∈ tx_data.kind.flatMap commandArguments) :
    execute_transaction env tx_data = (.error .gasCoinMisuse, empty_trace) := by
  have hv : check_transaction_validity tx_data = .error .gasCoinMisuse := by
    rw [check_transaction_validity_eq, if_pos h2]
  simp [execute_transaction, h1, hv]

/-- Shape of `execute_transaction` when `ready_for_execution` fails. -/
theorem execute_ready_fail (env : ExecEnv) (tx_data : TransactionData)
    (h1 : env.is_valid_address tx_data.gas_data.owner = true)
    (h2 : Argument.gasCoin ∉ tx_data.kind.flatMap commandArguments)
    (c : Nat) (h3 : env.ready_for_execution = .error c) :
    execute_transaction env tx_data =
      (.error (.storeError c), { empty_trace with ready_called := true }) := by
  have hv : check_transaction_validity tx_data = .ok () := by
    rw [check_transaction_validity_eq, if_neg h2]
  simp [execute_transaction, h1, hv, h3]

/-- Shape of `execute_transaction` when `ready_for_execution` succeeds and the
signing-and-submission step fails. -/
theorem execute_impl_error_shape (env : ExecEnv) (tx_data : TransactionData)
    (h1 : env.is_valid_address tx_data.gas_data.owner = true)
    (h2 : Argument.gasCoin ∉ tx_data.kind.flatMap commandArguments)
    (h3 : env.ready_for_execution = .ok ())
    (e : ExecError) (h4 : (execute_transaction_impl env).1 = .error e) :
    execute_transaction env tx_data =
      (.error e,
       { ready_called := true,
         pre_read := some (tx_data.gas_data.payment.map ObjectRef.id),
         sign_attempted := (execute_transaction_impl env).2.sign_attempted,
         submit_attempted := (execute_transaction_impl env).2.submit_attempted,
         cap_updated := (execute_transaction_impl env).2.cap_updated,
         post_read := some (tx_data.gas_data.payment.map ObjectRef.id),
         released := some (latest_surviving_coins env.chain_post
           (tx_data.gas_data.payment.map ObjectRef.id)) }) := by
  have hv : check_transaction_validity tx_data = .ok () := by
    rw [check_transaction_validity_eq, if_neg h2]
  simp [execute_transaction, h1, hv, h3, h4]

/-- Shape of `execute_transaction` when everything succeeds. -/
theorem execute_impl_ok_shape (env : ExecEnv) (tx_data : TransactionData)
    (h1 : env.is_valid_address tx_data.gas_data.owner = true)
    (h2 : Argument.gasCoin ∉ tx_data.kind.flatMap commandArguments)
    (h3 : env.ready_for_execution = .ok ())
    (r : ExecuteResponse) (h4 : (execute_transaction_impl env).1 = .ok r) :
    execute_transaction env tx_data =
      (.ok r,
       { ready_called := true,
         pre_read := some (tx_data.gas_data.payment.map ObjectRef.id),
         sign_attempted := true,
         submit_attempted := true,
         cap_updated := some r.effects.net_gas_usage,
         post_read := none,
         released := some
           [{ owner := tx_data.gas_data.owner,
              object_ref := r.effects.gas_object,
              balance := i64_as_u64 (i64_sub
                (u64_as_i64 (get_total_gas_coin_balance env.chain_pre
                  (tx_data.gas_data.payment.map ObjectRef.id)))
                r.effects.net_gas_usage) }] }) := by
  have hv : check_transaction_validity tx_data = .ok () := by
    rw [check_transaction_validity_eq, if_neg h2]
  have himpl := impl_ok_shape env r h4
  simp [execute_transaction, h1, hv, h3, himpl]

/-- A transaction that misuses the gas coin, sponsored by the unregistered
address 6. -/
def tx_misuse : TransactionData :=
  { kind := [.transferObjects [.gasCoin] (.input 0)], sender := 7,
    gas_data := { payment := [ref_a], owner := 6, price := 1, budget := 100 } }

/-- The same gas-misusing transaction, sponsored by the registered address
5. -/
def tx_misuse5 : TransactionData :=
  { tx_misuse with gas_data := { tx_misuse.gas_data with owner := 5 } }

/-- C1: for every call to `execute` in which `ready_for_execution` succeeds
and the signing-and-submission step (`execute_transaction_impl`) returns an
error, `execute` still queries the latest state of the payment object ids,
drops the ids mapped to `None`, and passes exactly the surviving coins to
`add_new_coins` before returning the error to the caller. -/
theorem execute_failure_path_reconciles_coins (env : ExecEnv) (tx_data : TransactionData)
    (h1 : env.is_valid_address tx_data.gas_data.owner = true)
    (h2 : Argument.gasCoin ∉ tx_data.kind.flatMap commandArguments)
    (h3 : env.ready_for_execution = .ok ())
    (e : ExecError) (h4 : (execute_transaction_impl env).1 = .error e) :
    (execute_transaction env tx_data).1 = .error e ∧
    (execute_transaction env tx_data).2.post_read =
      some (tx_data.gas_data.payment.map ObjectRef.id) ∧
    (execute_transaction env tx_data).2.released =
      some (latest_surviving_coins env.chain_post
        (tx_data.gas_data.payment.map ObjectRef.id)) := by
  rw [execute_impl_error_shape env tx_data h1 h2 h3 e h4]
  exact ⟨rfl, rfl, rfl⟩

/-- Witness for C1: a concrete execution whose signing step fails; the two
payment ids are re-read, the consumed coin 2 is dropped and the surviving
coin 1 is passed back. -/
theorem execute_failure_path_reconciles_coins_witness :
    (execute_transaction env_sign_fail tx_w).1 = .error (.signerFailed 0) ∧
    (execute_transaction env_sign_fail tx_w).2.post_read = some [1, 2] ∧
    (execute_transaction env_sign_fail tx_w).2.released =
      some [{ owner := 5, object_ref := ref_a, balance := 100 }] := by
  have h := execute_failure_path_reconciles_coins env_sign_fail tx_w rfl (by decide) rfl
    (.signerFailed 0) rfl
  refine ⟨h.1, h.2.1, ?_⟩
  rw [h.2.2]
  decide

/-- C4: for every call to `execute` in which `ready_for_execution` fails,
`execute` propagates the error immediately with no further side effects: no
chain read of the payment coins, no signing, no submission, no usage-cap
update, and no call to `add_new_coins`. -/
theorem execute_ready_failure_returns_immediately (env : ExecEnv) (tx_data : TransactionData)
    (h1 : env.is_valid_address tx_data.gas_data.owner = true)
    (h2 : Argument.gasCoin ∉ tx_data.kind.flatMap commandArguments)
    (c : Nat) (h3 : env.ready_for_execution = .error c) :
    execute_transaction env tx_data =
      (.error (.storeError c),
       { ready_called := true, pre_read := none, sign_attempted := false,
         submit_attempted := false, cap_updated := none, post_read := none,
         released := none }) :=
  execute_ready_fail env tx_data h1 h2 c h3

/-- Witness for C4: a concrete execution whose `ready_for_execution` fails
with code 7. -/
theorem execute_ready_failure_returns_immediately_witness :
    execute_transaction env_ready_fail tx_w =
      (.error (.storeError 7),
       { ready_called := true, pre_read := none, sign_attempted := false,
         submit_attempted := false, cap_updated := none, post_read := none,
         released := none }) :=
  execute_ready_failure_returns_immediately env_ready_fail tx_w rfl (by decide) 7 rfl

/-- C5: the sponsor-registration check runs first and the gas-coin-misuse
check second, both before any coin-store call: an unregistered sponsor yields
`UnknownSponsor` whatever the transaction, and a registered sponsor with a
gas-misusing transaction yields `GasCoinMisuse`; in both cases
`ready_for_execution` is never called and nothing is read, signed, submitted
or released. -/
theorem execute_precheck_order :
    (∀ (env : ExecEnv) (tx_data : TransactionData),
      env.is_valid_address tx_data.gas_data.owner = false →
      execute_transaction env tx_data = (.error .unknownSponsor, empty_trace)) ∧
    (∀ (env : ExecEnv) (tx_data : TransactionData),
      env.is_valid_address tx_data.gas_data.owner = true →
      Argument.gasCoin ∈ tx_data.kind.flatMap commandArguments →
      execute_transaction env tx_data = (.error .gasCoinMisuse, empty_trace)) :=
  ⟨execute_unknown_sponsor, execute_misuse⟩

/-- Witness for C5: the same gas-misusing transaction is rejected as
`UnknownSponsor` under an unregistered sponsor (registration is checked
first) and as `GasCoinMisuse` under a registered one; both leave the empty
trace. -/
theorem execute_precheck_order_witness :
    execute_transaction env_sign_fail tx_misuse = (.error .unknownSponsor, empty_trace) ∧
    execute_transaction env_sign_fail tx_misuse5 = (.error .gasCoinMisuse, empty_trace) :=
  ⟨execute_precheck_order.1 env_sign_fail tx_misuse rfl,
   execute_precheck_order.2 env_sign_fail tx_misuse5 rfl (by decide)⟩

/-- The derived-balance computation, in `Nat` form: it stores the subtraction
mod `2 ^ 64`. -/
theorem i64_derived_balance_toNat (t : Nat) (g : Int) :
    i64_as_u64 (i64_sub (u64_as_i64 t) g) =
      (((t : Int) - g) % 18446744073709551616).toNat := by
  unfold i64_as_u64 i64_sub i64_wrap u64_as_i64
  split <;> omega

/-- C2 counterexample: a successful execution in which the pre-submission
balance read sums to 0 and the net gas usage is 1 stores a coin whose balance
is the wrapped value `2 ^ 64 - 1`, not `pre_balance − net_gas_usage = −1`. -/
theorem execute_balance_law_counterexample :
    (execute_transaction env_overdraft tx_w).1 =
      .ok { timestamp_ms := some 9, effects := ⟨ref_a2, 1⟩, events := none } ∧
    get_total_gas_coin_balance env_overdraft.chain_pre
      (tx_w.gas_data.payment.map ObjectRef.id) = 0 ∧
    (execute_transaction env_overdraft tx_w).2.released =
      some [{ owner := 5, object_ref := ref_a2, balance := 18446744073709551615 }] ∧
    ¬ ((18446744073709551615 : Int) = (0 : Int) - 1) := by
  exact ⟨by decide, by decide, by decide, by decide⟩

/-- C2 amended: on every successful execution exactly one coin is passed to
`add_new_coins`; its owner is `tx_data.gas_data.owner`, its object reference
is `effects.gas_object`, and its balance is
`(pre_balance − net_gas_usage) mod 2 ^ 64` — equal to the plain difference
`pre_balance − net_gas_usage` whenever that difference lies in the `u64`
range. -/
theorem execute_success_single_coin_balance (env : ExecEnv) (tx_data : TransactionData)
    (h1 : env.is_valid_address tx_data.gas_data.owner = true)
    (h2 : Argument.gasCoin ∉ tx_data.kind.flatMap commandArguments)
    (h3 : env.ready_for_execution = .ok ())
    (r : ExecuteResponse) (h4 : (execute_transaction_impl env).1 = .ok r) :
    ∃ coin : GasCoin,
      (execute_transaction env tx_data).1 = .ok r ∧
      (execute_transaction env tx_data).2.released = some [coin] ∧
      coin.owner = tx_data.gas_data.owner ∧
      coin.object_ref = r.effects.gas_object ∧
      (coin.balance : Int) =
        ((get_total_gas_coin_balance env.chain_pre
            (tx_data.gas_data.payment.map ObjectRef.id) : Int) -
          r.effects.net_gas_usage) % 18446744073709551616 ∧
      (0 ≤ (get_total_gas_coin_balance env.chain_pre
            (tx_data.gas_data.payment.map ObjectRef.id) : Int) -
          r.effects.net_gas_usage →
        (get_total_gas_coin_balance env.chain_pre
            (tx_data.gas_data.payment.map ObjectRef.id) : Int) -
          r.effects.net_gas_usage < 18446744073709551616 →
        (coin.balance : Int) =
          (get_total_gas_coin_balance env.chain_pre
            (tx_data.gas_data.payment.map ObjectRef.id) : Int) -
          r.effects.net_gas_usage) := by
  rw [execute_impl_ok_shape env tx_data h1 h2 h3 r h4]
  refine ⟨_, rfl, rfl, rfl, rfl, ?_, ?_⟩
  · rw [i64_derived_balance_toNat]
    exact Int.toNat_of_nonneg (Int.emod_nonneg _ (by norm_num))
  · intro hlo hhi
    rw [i64_derived_balance_toNat,
      Int.toNat_of_nonneg (Int.emod_nonneg _ (by norm_num)),
      Int.emod_eq_of_lt hlo hhi]

/-- Witness for C2 amended: a concrete successful execution with pre-balance
100 and net gas usage 30 stores the single coin of balance 70. -/
theorem execute_success_single_coin_balance_witness :
    ∃ coin : GasCoin,
      (execute_transaction env_success tx_w).1 =
        .ok { timestamp_ms := some 9, effects := ⟨ref_a2, 30⟩, events := none } ∧
      (execute_transaction env_success tx_w).2.released = some [coin] ∧
      coin.owner = 5 ∧
      coin.object_ref = ref_a2 ∧
      (coin.balance : Int) = ((100 : Int) - 30) % 18446744073709551616 ∧
      (0 ≤ (100 : Int) - 30 → (100 : Int) - 30 < 18446744073709551616 →
        (coin.balance : Int) = (100 : Int) - 30) :=
  execute_success_single_coin_balance env_success tx_w rfl (by decide) rfl
    { timestamp_ms := some 9, effects := ⟨ref_a2, 30⟩, events := none } rfl

/-- C9: on every successful execution whose net gas usage exceeds the
pre-submission balance sum, the coin stored back into the pool carries the
wrapped balance `(pre_balance − net_gas_usage) mod 2 ^ 64` — a value different
from the true difference — and the call still succeeds instead of failing. -/
theorem execute_overdraft_wraps (env : ExecEnv) (tx_data : TransactionData)
    (h1 : env.is_valid_address tx_data.gas_data.owner = true)
    (h2 : Argument.gasCoin ∉ tx_data.kind.flatMap commandArguments)
    (h3 : env.ready_for_execution = .ok ())
    (r : ExecuteResponse) (h4 : (execute_transaction_impl env).1 = .ok r)
    (hover : (get_total_gas_coin_balance env.chain_pre
        (tx_data.gas_data.payment.map ObjectRef.id) : Int) <
      r.effects.net_gas_usage) :
    (execute_transaction env tx_data).1 = .ok r ∧
    (execute_transaction env tx_data).2.released =
      some [{ owner := tx_data.gas_data.owner,
              object_ref := r.effects.gas_object,
              balance := (((get_total_gas_coin_balance env.chain_pre
                  (tx_data.gas_data.payment.map ObjectRef.id) : Int) -
                r.effects.net_gas_usage) % 18446744073709551616).toNat }] ∧
    ((((get_total_gas_coin_balance env.chain_pre
          (tx_data.gas_data.payment.map ObjectRef.id) : Int) -
        r.effects.net_gas_usage) % 18446744073709551616) ≠
      (get_total_gas_coin_balance env.chain_pre
          (tx_data.gas_data.payment.map ObjectRef.id) : Int) -
        r.effects.net_gas_usage) := by
  rw [execute_impl_ok_shape env tx_data h1 h2 h3 r h4]
  refine ⟨rfl, ?_, ?_⟩
  · rw [i64_derived_balance_toNat]
  · have hneg : (get_total_gas_coin_balance env.chain_pre
        (tx_data.gas_data.payment.map ObjectRef.id) : Int) -
        r.effects.net_gas_usage < 0 := by omega
    have hnn := Int.emod_nonneg
      ((get_total_gas_coin_balance env.chain_pre
          (tx_data.gas_data.payment.map ObjectRef.id) : Int) -
        r.effects.net_gas_usage)
      (show (18446744073709551616 : Int) ≠ 0 by norm_num)
    omega

/-- Witness for C9: the concrete overdraft execution (pre-balance 0, net gas
usage 1) succeeds and stores the wrapped balance `2 ^ 64 - 1`. -/
theorem execute_overdraft_wraps_witness :
    (execute_transaction env_overdraft tx_w).1 =
      .ok { timestamp_ms := some 9, effects := ⟨ref_a2, 1⟩, events := none } ∧
    (execute_transaction env_overdraft tx_w).2.released =
      some [{ owner := 5, object_ref := ref_a2,
              balance := (((0 : Int) - 1) % 18446744073709551616).toNat }] ∧
    ((((0 : Int) - 1) % 18446744073709551616) ≠ (0 : Int) - 1) := by
  have h := execute_overdraft_wraps env_overdraft tx_w rfl (by decide) rfl
    { timestamp_ms := some 9, effects := ⟨ref_a2, 1⟩, events := none } rfl (by decide)
  exact h

/-- Error kinds producible by `execute_transaction_impl`. -/
theorem impl_error_kinds (env : ExecEnv) (e : ExecError)
    (h : (execute_transaction_impl env).1 = .error e) :
    (∃ c, e = .signerFailed c) ∨ (∃ c, e = .executionFailed c) := by
  rcases hs : env.sign_result with c | u
  · rw [impl_sign_fail env c hs] at h
    exact Or.inl ⟨c, by simpa using h.symm⟩
  · cases u
    rcases hb : env.submit_result with c | r
    · rw [impl_submit_fail env c hs hb] at h
      exact Or.inr ⟨c, by simpa using h.symm⟩
    · rw [impl_submit_ok env r hs hb] at h
      exact absurd h (by simp)

/-- A transaction whose only command is a split with the `GasCoin`
pseudo-argument in amount position, sponsored by the registered address 5. -/
def tx_split_amount : TransactionData :=
  { kind := [.splitCoins (.input 0) [.gasCoin]], sender := 7,
    gas_data := { payment := [ref_a], owner := 5, price := 1, budget := 100 } }

/-- C3 counterexample: the `GasCoin` pseudo-argument in the amount position of
a split command is an argument of that command, yet `check_transaction_validity`
accepts the transaction (only the split's target coin is inspected) and
`execute` does not fail with `GasCoinMisuse` on it. -/
theorem split_amounts_not_inspected :
    check_transaction_validity tx_split_amount = .ok () ∧
    Argument.gasCoin ∈ command_arguments_spec (.splitCoins (.input 0) [.gasCoin]) ∧
    (execute_transaction env_ready_fail tx_split_amount).1 ≠ .error .gasCoinMisuse := by
  exact ⟨by decide, by decide, by decide⟩

/-- C3 amended: `execute` fails with `GasCoinMisuse` exactly when the
`GasCoin` pseudo-argument occurs among the arguments the code inspects — all
arguments of move calls, the transferred objects of a transfer (not the
recipient), the target coin of a split (not the amounts), the destination and
sources of a merge, and the elements of a make-vec; Publish and Upgrade
commands contribute no inspected argument and never trigger the error. -/
theorem gas_misuse_error_characterization :
    (∀ (env : ExecEnv) (tx_data : TransactionData),
      env.is_valid_address tx_data.gas_data.owner = true →
      ((execute_transaction env tx_data).1 = .error .gasCoinMisuse ↔
        Argument.gasCoin ∈ tx_data.kind.flatMap commandArguments)) ∧
    (∀ modules dependencies, commandArguments (.publish modules dependencies) = []) ∧
    (∀ modules dependencies pkg ticket,
      commandArguments (.upgrade modules dependencies pkg ticket) = []) := by
  refine ⟨?_, fun _ _ => rfl, fun _ _ _ _ => rfl⟩
  intro env tx_data h1
  constructor
  · intro hres
    by_contra hmem
    rcases h3 : env.ready_for_execution with c | u
    · rw [execute_ready_fail env tx_data h1 hmem c h3] at hres
      simp at hres
    · cases u
      rcases h4 : (execute_transaction_impl env).1 with e | r
      · rw [execute_impl_error_shape env tx_data h1 hmem h3 e h4] at hres
        simp only at hres
        rcases impl_error_kinds env e h4 with ⟨c, rfl⟩ | ⟨c, rfl⟩ <;> simp at hres
      · rw [execute_impl_ok_shape env tx_data h1 hmem h3 r h4] at hres
        simp at hres
  · intro hmem
    rw [execute_misuse env tx_data h1 hmem]

/-- Witness for C3 amended: a registered sponsor with a transaction whose
transfer command carries the `GasCoin` pseudo-argument is rejected with
`GasCoinMisuse`; Publish and Upgrade contribute no inspected argument. -/
theorem gas_misuse_error_characterization_witness :
    (execute_transaction env_ready_fail tx_misuse5).1 = .error .gasCoinMisuse ∧
    commandArguments (.publish [[1]] [2]) = [] ∧
    commandArguments (.upgrade [[1]] [2] 3 .gasCoin) = [] :=
  ⟨(gas_misuse_error_characterization.1 env_ready_fail tx_misuse5 rfl).mpr (by decide),
   gas_misuse_error_characterization.2.1 [[1]] [2],
   gas_misuse_error_characterization.2.2 [[1]] [2] 3 .gasCoin⟩

/-- C6: `reserve_gas` substitutes the signer's first address for an absent
sponsor; the usage-cap check happens before any coin-store call, so a
`CapExceeded` failure creates no reservation; and on success the returned
sequence is exactly the object references of the coins the coin store
reserved, in the same order, with balances stripped. -/
theorem reserve_gas_contract :
    (∀ (env : ReserveEnv) (gas_budget duration_ms a : Nat) (rest : List Address),
      env.signer_addresses = a :: rest →
      reserve_gas env none gas_budget duration_ms =
        reserve_gas env (some a) gas_budget duration_ms) ∧
    (∀ (env : ReserveEnv) (sponsor : Option Address) (gas_budget duration_ms : Nat),
      env.cap_check = .error () →
      reserve_gas env sponsor gas_budget duration_ms = (.error .capExceeded, ⟨none⟩)) ∧
    (∀ (env : ReserveEnv) (sponsor gas_budget duration_ms reservation_id : Nat)
        (coins : List GasCoin),
      env.cap_check = .ok () →
      env.store_reserve sponsor gas_budget duration_ms = .ok (reservation_id, coins) →
      reserve_gas env (some sponsor) gas_budget duration_ms =
        (.ok (sponsor, reservation_id, coins.map GasCoin.object_ref),
         ⟨some (sponsor, gas_budget, duration_ms)⟩)) := by
  refine ⟨?_, ?_, ?_⟩
  · intro env gas_budget duration_ms a rest h
    unfold reserve_gas
    rw [h]
    rfl
  · intro env sponsor gas_budget duration_ms h
    unfold reserve_gas
    rw [h]
  · intro env sponsor gas_budget duration_ms reservation_id coins h1 h2
    unfold reserve_gas
    rw [h1]
    simp only [Option.getD_some]
    rw [h2]

/-- A coin store that reserves the two fixture coins under reservation id
42. -/
def renv_ok : ReserveEnv :=
  { signer_addresses := [5, 6],
    cap_check := .ok (),
    store_reserve := fun _ _ _ =>
      .ok (42, [{ owner := 5, object_ref := ref_a, balance := 100 },
                { owner := 5, object_ref := ref_b, balance := 50 }]) }

/-- The same store behind a usage cap that rejects. -/
def renv_cap : ReserveEnv := { renv_ok with cap_check := .error () }

/-- Witness for C6: an absent sponsor resolves to address 5; a cap rejection
leaves the store untouched; a successful reservation returns the two object
references stripped of balances. -/
theorem reserve_gas_contract_witness :
    reserve_gas renv_ok none 150 3000 = reserve_gas renv_ok (some 5) 150 3000 ∧
    reserve_gas renv_cap (some 5) 150 3000 = (.error .capExceeded, ⟨none⟩) ∧
    reserve_gas renv_ok (some 5) 150 3000 =
      (.ok (5, 42, [ref_a, ref_b]), ⟨some (5, 150, 3000)⟩) :=
  ⟨reserve_gas_contract.1 renv_ok 150 3000 5 [6] rfl,
   reserve_gas_contract.2.1 renv_cap (some 5) 150 3000 rfl,
   reserve_gas_contract.2.2 renv_ok 5 150 3000 42
     [{ owner := 5, object_ref := ref_a, balance := 100 },
      { owner := 5, object_ref := ref_b, balance := 50 }] rfl rfl⟩

/-- C7: on every tick of the expiration sweeper, an `expire_coins` error is
swallowed and the tick behaves exactly as if the expired set were empty; a
non-empty id set is queried for its latest state, the entries mapped to `None`
are dropped, and exactly the surviving coins are passed to `add_new_coins`;
the tick's result type has no error component, so no error is ever surfaced
from the task. -/
theorem coin_unlock_tick_contract :
    (∀ (c : Nat) (chain : ObjectID → SuiObjectResponse),
      coin_unlock_tick (.error c) chain = ⟨none, none⟩ ∧
      coin_unlock_tick (.error c) chain = coin_unlock_tick (.ok []) chain) ∧
    (∀ (ids : List ObjectID) (chain : ObjectID → SuiObjectResponse),
      ids ≠ [] →
      coin_unlock_tick (.ok ids) chain =
        ⟨some ids, some (latest_surviving_coins chain ids)⟩) := by
  constructor
  · intro c chain
    exact ⟨rfl, rfl⟩
  · intro ids chain h
    unfold coin_unlock_tick
    rw [if_neg (by simpa using h)]

/-- Witness for C7: an erroring tick does nothing and equals the empty tick;
a tick over the expired ids 1 and 2 drops the consumed coin 2 and releases
the surviving coin 1. -/
theorem coin_unlock_tick_contract_witness :
    coin_unlock_tick (.error 3) chain_w = ⟨none, none⟩ ∧
    coin_unlock_tick (.error 3) chain_w = coin_unlock_tick (.ok []) chain_w ∧
    coin_unlock_tick (.ok [1, 2]) chain_w =
      ⟨some [1, 2], some (latest_surviving_coins chain_w [1, 2])⟩ ∧
    latest_surviving_coins chain_w [1, 2] =
      [{ owner := 5, object_ref := ref_a, balance := 100 }] := by
  refine ⟨(coin_unlock_tick_contract.1 3 chain_w).1,
          (coin_unlock_tick_contract.1 3 chain_w).2,
          coin_unlock_tick_contract.2 [1, 2] chain_w (by decide), by decide⟩

/-- A fullnode response for an object that still exists on-chain but is
shared-owned rather than address-owned. -/
def shared_coin_response : SuiObjectResponse :=
  ⟨some { object_ref := ref_a, owner := some .shared,
          bcs := some (.moveObject gas_coin_type_tag
            (List.replicate 32 0 ++ natToLeBytes 8 100)) }⟩

/-- C8 counterexample: an object that still exists on-chain (here a
shared-owned coin object) is mapped to `None` by `try_get_sui_coin_balance`
and by `get_latest_gas_objects`, so `None` is not equivalent to "the object no
longer exists on-chain". -/
theorem existing_object_mapped_to_none :
    shared_coin_response.data ≠ none ∧
    try_get_sui_coin_balance shared_coin_response = none ∧
    get_latest_gas_objects (fun _ => shared_coin_response) [1] = [(1, none)] := by
  exact ⟨by decide, by decide, by decide⟩

/-- C8 amended: `get_latest_gas_objects` maps every queried id through
`try_get_sui_coin_balance` of its fullnode response; a non-existing object is
mapped to `None`, but so is an existing object that is not an address-owned
Move object of the gas-coin type with well-formed BCS content; when the
object is such a gas coin, the result carries its owner address, its object
reference and its balance. -/
theorem latest_state_characterization :
    (∀ (chain : ObjectID → SuiObjectResponse) (ids : List ObjectID) (i : ObjectID),
      i ∈ ids →
      (i, try_get_sui_coin_balance (chain i)) ∈ get_latest_gas_objects chain ids) ∧
    (∀ object : SuiObjectResponse, object.data = none →
      try_get_sui_coin_balance object = none) ∧
    (∀ (object : SuiObjectResponse) (d : SuiObjectData), object.data = some d →
      ∀ c : GasCoin,
        (try_get_sui_coin_balance object = some c ↔
          ∃ a bytes balance,
            d.owner = some (.addressOwner a) ∧
            d.bcs = some (.moveObject gas_coin_type_tag bytes) ∧
            bcs_from_bytes_gas_coin bytes = some balance ∧
            c = { owner := a, object_ref := d.object_ref, balance := balance })) := by
  refine ⟨?_, ?_, ?_⟩
  · intro chain ids i hi
    exact List.mem_map.mpr ⟨i, List.mem_dedup.mpr hi, rfl⟩
  · intro object h
    simp [try_get_sui_coin_balance, h]
  · intro object d hd c
    obtain ⟨data⟩ := object
    simp only at hd
    subst hd
    obtain ⟨oref, downer, dbcs⟩ := d
    rcases downer with _ | o
    · simp [try_get_sui_coin_balance]
    rcases o with a | a | _ | _ <;>
      try simp [try_get_sui_coin_balance, Owner.get_address_owner_address]
    rcases dbcs with _ | raw
    · simp [try_get_sui_coin_balance, Owner.get_address_owner_address]
    rcases raw with ⟨t, bytes⟩ | mods
    · by_cases ht : t = gas_coin_type_tag
      · subst ht
        rcases hdec : bcs_from_bytes_gas_coin bytes with _ | bal <;>
          simp [try_get_sui_coin_balance, Owner.get_address_owner_address,
            SuiRawData.try_as_move, hdec, eq_comm]
      · simp [try_get_sui_coin_balance, Owner.get_address_owner_address,
          SuiRawData.try_as_move, ht]
    · simp [try_get_sui_coin_balance, Owner.get_address_owner_address,
        SuiRawData.try_as_move]

/-- Witness for C8 amended: id 1 of the fixture chain is mapped through
`try_get_sui_coin_balance`; a missing object maps to `None`; a live
address-owned gas coin maps to its owner, reference and balance. -/
theorem latest_state_characterization_witness :
    (1, try_get_sui_coin_balance (chain_w 1)) ∈ get_latest_gas_objects chain_w [1, 2] ∧
    try_get_sui_coin_balance missing_response = none ∧
    try_get_sui_coin_balance (coin_response 5 ref_a 100) =
      some { owner := 5, object_ref := ref_a, balance := 100 } :=
  ⟨latest_state_characterization.1 chain_w [1, 2] 1 (by decide),
   latest_state_characterization.2.1 missing_response rfl,
   (latest_state_characterization.2.2 (coin_response 5 ref_a 100) _ rfl _).mpr
     ⟨5, List.replicate 32 0 ++ natToLeBytes 8 100, 100, rfl, rfl, by decide, rfl⟩⟩

/-- Trace of a successful `reserve_gas` call: the coin store was called with
exactly the supplied sponsor, budget and duration. -/
theorem reserve_gas_ok_trace (env : ReserveEnv) (s : Address) (b d : Nat)
    (out : Address × ReservationID × List ObjectRef) (t : ReserveTrace)
    (h : reserve_gas env (some s) b d = (.ok out, t)) :
    t = ⟨some (s, b, d)⟩ := by
  simp only [reserve_gas, Option.getD_some] at h
  rcases hc : env.cap_check with u | u <;> cases u <;> rw [hc] at h
  · have h1 := congrArg Prod.fst h
    simp at h1
  · rcases hs : env.store_reserve s b d with c | ⟨rid, coins⟩ <;> rw [hs] at h
    · have h1 := congrArg Prod.fst h
      simp at h1
    · exact (congrArg Prod.snd h).symm

/-- A health-check environment in which everything succeeds. -/
def henv : HealthEnv := { reserve_env := renv_ok, sign_result := .ok () }

/-- C10: `debug_check_health` reserves gas coins and signs a transaction but
never submits it and never calls `add_new_coins`; on success it has reserved
through the coin store with budget `MIST_PER_OCT / 10` and a 3000 ms
time-to-live for the signer's first address, so the reserved coins stay
withdrawn until that reservation expires and the sweeper reclaims them. -/
theorem debug_check_health_no_submit_no_release (env : HealthEnv) :
    (debug_check_health env).2.submitted = false ∧
    (debug_check_health env).2.released = none ∧
    ((debug_check_health env).1 = .ok () →
      (debug_check_health env).2.reserve_trace.store_called =
        some (env.reserve_env.signer_addresses.headD 0, MIST_PER_OCT / 10, 3000) ∧
      (debug_check_health env).2.signed_tx ≠ none) := by
  rcases hres : reserve_gas env.reserve_env
      (some (env.reserve_env.signer_addresses.headD 0)) (MIST_PER_OCT / 10) 3000 with
    ⟨res, t⟩
  rcases res with e | ⟨adr, rid, coins⟩
  · simp only [debug_check_health]
    rw [hres]
    simp
  · have ht := reserve_gas_ok_trace env.reserve_env
      (env.reserve_env.signer_addresses.headD 0) (MIST_PER_OCT / 10) 3000
      (adr, rid, coins) t hres
    subst ht
    rcases hg : env.sign_result with c | u
    · simp only [debug_check_health]
      rw [hres, hg]
      simp
    · cases u
      simp only [debug_check_health]
      rw [hres, hg]
      simp

/-- Witness for C10: the concrete successful health check submits nothing,
releases nothing, and has reserved with budget `MIST_PER_OCT / 10` and a
3000 ms time-to-live for address 5, signing a transaction. -/
theorem debug_check_health_no_submit_no_release_witness :
    (debug_check_health henv).2.submitted = false ∧
    (debug_check_health henv).2.released = none ∧
    (debug_check_health henv).2.reserve_trace.store_called =
      some (5, MIST_PER_OCT / 10, 3000) ∧
    (debug_check_health henv).2.signed_tx ≠ none := by
  have h := debug_check_health_no_submit_no_release henv
  have h2 := h.2.2 rfl
  exact ⟨h.1, h.2.1, h2.1, h2.2⟩

end GasPoolModel
